import Mathlib

/-!
Verification development for the airmouse motion pipeline
(`server/airmouse_server`): shallow embedding of `imu.py`, `consensus.py`,
`fusion.py` and `smoothing.py`, followed by theorems about the embedded code.

Python floats are modelled as exact rationals (`ℚ`).  Magnitude tests of the
form `math.hypot(x, y) ⋈ c` are embedded as the equivalent rational
comparisons on squares (`hypotLe`, `hypotLt`, `hypotGe`); the bridge lemmas
`hypotLe_iff`, `hypotLt_iff`, `hypotGe_iff` prove each equivalent to the
real-number comparison with `Real.sqrt (x² + y²)`.  The transcendental angle
test of `consensus._angle_diff` is embedded exactly as a real-number
proposition (`angleOk`, via `Complex.arg`, which is `atan2(dy, dx)`), and the
functions that branch on it take a decision oracle for that proposition as an
explicit argument.
-/

/-- `MotionDelta` from `imu.py`: dx/dy pixel motion, timestamp (ms), validity bit. -/
structure MotionDelta where
  dx : ℚ
  dy : ℚ
  ts_ms : ℚ
  valid : Bool
deriving DecidableEq, Repr

/-- `VoteResult` from `consensus.py`. -/
structure VoteResult where
  ok : Bool
  total_votes : Nat
  yes_votes : Nat
deriving DecidableEq, Repr

/-- `math.hypot(x, y) ≤ c`, expressed exactly over `ℚ` (see `hypotLe_iff`). -/
def hypotLe (x y c : ℚ) : Bool :=
  decide (0 ≤ c) && decide (x ^ 2 + y ^ 2 ≤ c ^ 2)

/-- `math.hypot(x, y) < c`, expressed exactly over `ℚ` (see `hypotLt_iff`). -/
def hypotLt (x y c : ℚ) : Bool :=
  decide (0 < c) && decide (x ^ 2 + y ^ 2 < c ^ 2)

/-- `math.hypot(x, y) ≥ c`, expressed exactly over `ℚ` (see `hypotGe_iff`). -/
def hypotGe (x y c : ℚ) : Bool :=
  decide (c ≤ 0) || decide (c ^ 2 ≤ x ^ 2 + y ^ 2)

theorem hypotLe_iff (x y c : ℚ) :
    hypotLe x y c = true ↔ Real.sqrt ((x : ℝ) ^ 2 + (y : ℝ) ^ 2) ≤ (c : ℝ) := by
  rw [Real.sqrt_le_iff, hypotLe]
  simp only [Bool.and_eq_true, decide_eq_true_eq]
  constructor
  · rintro ⟨h0, hsq⟩
    refine ⟨by exact_mod_cast h0, by exact_mod_cast hsq⟩
  · rintro ⟨h0, hsq⟩
    refine ⟨by exact_mod_cast h0, by exact_mod_cast hsq⟩

theorem hypotLt_iff (x y c : ℚ) :
    hypotLt x y c = true ↔ Real.sqrt ((x : ℝ) ^ 2 + (y : ℝ) ^ 2) < (c : ℝ) := by
  rw [hypotLt]
  simp only [Bool.and_eq_true, decide_eq_true_eq]
  constructor
  · rintro ⟨h0, hsq⟩
    have h0' : (0 : ℝ) < (c : ℝ) := by exact_mod_cast h0
    rw [Real.sqrt_lt' h0']
    exact_mod_cast hsq
  · intro h
    have h0' : (0 : ℝ) < (c : ℝ) := lt_of_le_of_lt (Real.sqrt_nonneg _) h
    rw [Real.sqrt_lt' h0'] at h
    exact ⟨by exact_mod_cast h0', by exact_mod_cast h⟩

theorem hypotGe_iff (x y c : ℚ) :
    hypotGe x y c = true ↔ (c : ℝ) ≤ Real.sqrt ((x : ℝ) ^ 2 + (y : ℝ) ^ 2) := by
  rw [hypotGe]
  simp only [Bool.or_eq_true, decide_eq_true_eq]
  constructor
  · rintro (h0 | hsq)
    · exact le_trans (by exact_mod_cast h0) (Real.sqrt_nonneg _)
    · rcases le_or_lt (c : ℝ) 0 with hc | hc
      · exact le_trans hc (Real.sqrt_nonneg _)
      · rw [Real.le_sqrt' hc]
        exact_mod_cast hsq
  · intro h
    rcases le_or_lt c 0 with hc | hc
    · exact Or.inl hc
    · have hc' : (0 : ℝ) < (c : ℝ) := by exact_mod_cast hc
      rw [Real.le_sqrt' hc'] at h
      exact Or.inr (by exact_mod_cast h)

/-- The consensus angle test of `consensus.py`, embedded exactly over `ℝ`:
`_angle(dx, dy) = atan2(dy, dx) = Complex.arg (dx + dy·i)`,
`_angle_diff(a, b) = |((a − b + π) mod 2π) − π|` (`x mod m = x − m·⌊x/m⌋`,
the Python float `%` with positive divisor), and the vote passes when the
difference is at most `radians(max_angle_deg)`. -/
def angleOk (p v : MotionDelta) (maxAngleDeg : ℚ) : Prop :=
  let a : ℝ := Complex.arg ⟨(p.dx : ℝ), (p.dy : ℝ)⟩
  let b : ℝ := Complex.arg ⟨(v.dx : ℝ), (v.dy : ℝ)⟩
  let d : ℝ := a - b + Real.pi
  |d - 2 * Real.pi * (⌊d / (2 * Real.pi)⌋ : ℤ) - Real.pi| ≤
    (maxAngleDeg : ℝ) * Real.pi / 180

/-- A decision oracle for `angleOk`; the functions translated from the code
take it as an argument because the angle test is transcendental. -/
def AngleDec : Type :=
  (p v : MotionDelta) → (d : ℚ) → Decidable (angleOk p v d)

/-- The validator loop of `majority_validate_direction` (`consensus.py`
lines 51-60): fold over the validators, skipping invalid, stale or
sub-magnitude entries, counting one total vote per survivor and one yes vote
when the angle test passes.  `now_ms = primary.ts_ms`. -/
def countVotes (A : AngleDec) (primary : MotionDelta)
    (maxAge minMag maxAngleDeg : ℚ) :
    List MotionDelta → Nat × Nat → Nat × Nat
  | [], acc => acc
  | v :: rest, acc =>
    if v.valid = false then
      countVotes A primary maxAge minMag maxAngleDeg rest acc
    else if maxAge < |primary.ts_ms - v.ts_ms| then
      countVotes A primary maxAge minMag maxAngleDeg rest acc
    else if hypotLt v.dx v.dy minMag = true then
      countVotes A primary maxAge minMag maxAngleDeg rest acc
    else
      countVotes A primary maxAge minMag maxAngleDeg rest
        (acc.1 + 1,
          if @Decidable.decide (angleOk primary v maxAngleDeg)
              (A primary v maxAngleDeg) = true then acc.2 + 1 else acc.2)

/-- `majority_validate_direction` from `consensus.py`. -/
def majority_validate_direction (A : AngleDec) (primary : MotionDelta)
    (validators : List MotionDelta)
    (max_age_ms min_mag max_angle_deg : ℚ) : VoteResult :=
  if primary.valid = false then ⟨false, 0, 0⟩
  else if hypotLt primary.dx primary.dy min_mag = true then ⟨true, 1, 1⟩
  else
    let c := countVotes A primary max_age_ms min_mag max_angle_deg validators (1, 1)
    ⟨decide (c.1 / 2 + 1 ≤ c.2), c.1, c.2⟩

/-- `FusionConfig` from `fusion.py`, with its defaults. -/
structure FusionConfig where
  camera_gate_enabled : Bool := true
  camera_max_age_ms : ℚ := 250
  camera_still_px : ℚ := 0.35
  camera_validator_min_px : ℚ := 0.75
  imu_min_px_when_camera_still : ℚ := 2.5
  imu_opposite_max_px_when_camera_still : ℚ := 6
  max_angle_deg : ℚ := 40
  min_mag : ℚ := 0.01
  weak_fallback_scale : ℚ := 0.35
deriving DecidableEq, Repr

def IMU_SOURCES : List String := ["accel", "gyro", "orientation"]

def AUTHORITATIVE_SOURCES : List String := ["camera", "delta"]

/-- Association-list lookup, modelling a Python dict access (`d[k]` /
`d.get(k)`); dict keys are unique, first match. -/
def alookup {β : Type} : List (String × β) → String → Option β
  | [], _ => none
  | (k, v) :: rest, s => if k = s then some v else alookup rest s

/-- `enabled.get(source, False)` from `fusion.py`. -/
def lookupB (enabled : List (String × Bool)) (s : String) : Bool :=
  (alookup enabled s).getD false

/-- The `motions` dict built in `compute_raw_delta` (lines 41-45): drop
zero pending sums, stamp survivors with `now_ms` and `valid=True`. -/
def motionsOf : List (String × ℚ × ℚ) → ℚ → List (String × MotionDelta)
  | [], _ => []
  | (s, d) :: rest, now =>
    if d.1 = 0 ∧ d.2 = 0 then motionsOf rest now
    else (s, ⟨d.1, d.2, now, true⟩) :: motionsOf rest now

def priorityOrder : List String := ["camera", "delta", "accel", "orientation", "gyro"]

def firstPriority (motions : List (String × MotionDelta)) :
    List String → Option String
  | [] => none
  | s :: rest =>
    if (alookup motions s).isSome then some s else firstPriority motions rest

/-- Primary-source selection (`fusion.py` line 51): first source in priority
order that is present in `motions`, else the first key by insertion order;
`none` exactly when `motions` is empty. -/
def primarySourceOf (motions : List (String × MotionDelta)) : Option String :=
  match firstPriority motions priorityOrder with
  | some s => some s
  | none => motions.head?.map Prod.fst

/-- `cam_fresh` (`fusion.py` lines 65-71), for `cam` already known present. -/
def camFresh (cfg : FusionConfig) (cam : MotionDelta) (now_ms : ℚ) : Prop :=
  cfg.camera_gate_enabled = true ∧ cam.valid = true ∧
    0 ≤ now_ms - cam.ts_ms ∧ now_ms - cam.ts_ms ≤ cfg.camera_max_age_ms

instance (cfg : FusionConfig) (cam : MotionDelta) (now_ms : ℚ) :
    Decidable (camFresh cfg cam now_ms) := by
  unfold camFresh
  infer_instance

/-- `opposite_prev` (`fusion.py` line 77): last output non-zero and the
primary points against it (negative dot product). -/
def oppositePrev (primary : MotionDelta) (last_out : ℚ × ℚ) : Prop :=
  (last_out.1 ≠ 0 ∨ last_out.2 ≠ 0) ∧
    primary.dx * last_out.1 + primary.dy * last_out.2 < 0

instance (primary : MotionDelta) (last_out : ℚ × ℚ) :
    Decidable (oppositePrev primary last_out) := by
  unfold oppositePrev
  infer_instance

/-- The camera stillness veto conditions (`fusion.py` lines 72-81), given
`cam_fresh` and an IMU primary: camera magnitude at most `camera_still_px`
and either a weak primary or a bounce-back-shaped primary. -/
def stillVeto (cfg : FusionConfig) (cam primary : MotionDelta)
    (last_out : ℚ × ℚ) : Prop :=
  hypotLe cam.dx cam.dy cfg.camera_still_px = true ∧
    (hypotLe primary.dx primary.dy cfg.imu_min_px_when_camera_still = true ∨
      (oppositePrev primary last_out ∧
        hypotLe primary.dx primary.dy cfg.imu_opposite_max_px_when_camera_still = true))

instance (cfg : FusionConfig) (cam primary : MotionDelta) (last_out : ℚ × ℚ) :
    Decidable (stillVeto cfg cam primary last_out) := by
  unfold stillVeto
  infer_instance

/-- The arbitration tail of `compute_raw_delta` (`fusion.py` lines 87-132).
`camIsSole` records whether the camera cache entry was appended to the
validators (the only way `v is cam` can hold at line 113). -/
def arbitrate (A : AngleDec) (cfg : FusionConfig) (primary : MotionDelta)
    (validators : List MotionDelta) (camIsSole : Bool)
    (last_out : ℚ × ℚ) (now_ms : ℚ) : ℚ × ℚ :=
  if 2 ≤ validators.length then
    if (majority_validate_direction A primary validators
        cfg.camera_max_age_ms cfg.min_mag cfg.max_angle_deg).ok then
      (primary.dx, primary.dy)
    else (0, 0)
  else if validators.length = 1 then
    if (majority_validate_direction A primary validators
        cfg.camera_max_age_ms cfg.min_mag cfg.max_angle_deg).ok then
      (primary.dx, primary.dy)
    else if camIsSole then (0, 0)
    else if last_out.1 = 0 ∧ last_out.2 = 0 then
      (primary.dx * cfg.weak_fallback_scale, primary.dy * cfg.weak_fallback_scale)
    else if (majority_validate_direction A primary
        [⟨last_out.1, last_out.2, now_ms, true⟩] 10000 cfg.min_mag
        cfg.max_angle_deg).ok then
      (primary.dx, primary.dy)
    else
      (primary.dx * cfg.weak_fallback_scale, primary.dy * cfg.weak_fallback_scale)
  else (primary.dx, primary.dy)

/-- `compute_raw_delta` from `fusion.py`, translated line by line.  The
`pending`, `enabled` and `last_motion` dicts are association lists (insertion
order preserved, unique keys). -/
def compute_raw_delta (A : AngleDec) (pending : List (String × ℚ × ℚ))
    (enabled : List (String × Bool)) (last_motion : List (String × MotionDelta))
    (last_out : ℚ × ℚ) (now_ms : ℚ) (cfg : FusionConfig) : ℚ × ℚ :=
  let motions := motionsOf pending now_ms
  match primarySourceOf motions with
  | none => (0, 0)
  | some ps =>
    match alookup motions ps with
    | none => (0, 0)
    | some primary =>
      if ps = "camera" ∧ lookupB enabled "camera" = false then (0, 0)
      else if ps ∈ IMU_SOURCES ∧ lookupB enabled ps = false then (0, 0)
      else if ps ∈ AUTHORITATIVE_SOURCES then (primary.dx, primary.dy)
      else
        let mvals := (motions.filter fun sv => sv.1 != ps).map Prod.snd
        match (if lookupB enabled "camera" = true then
            alookup last_motion "camera" else none) with
        | none => arbitrate A cfg primary mvals false last_out now_ms
        | some cam =>
          if camFresh cfg cam now_ms ∧ ps ∈ IMU_SOURCES ∧
              stillVeto cfg cam primary last_out then (0, 0)
          else
            let app : Bool := decide (camFresh cfg cam now_ms) &&
              (alookup motions "camera").isNone &&
              hypotGe cam.dx cam.dy cfg.camera_validator_min_px
            arbitrate A cfg primary (if app then mvals ++ [cam] else mvals)
              app last_out now_ms

/-- The three dicts `compute_raw_delta` receives from the session. -/
structure FusionEnv where
  pending : List (String × ℚ × ℚ)
  enabled : List (String × Bool)
  lastMotion : List (String × MotionDelta)
deriving Repr

/-- `compute_raw_delta` together with the final contents of the dicts it was
given.  Every dict operation in the source body is a read (`pending.items()`
on line 42, `enabled.get` on lines 54-64, `last_motion.get` on line 64);
`motions` is a fresh local dict, so the environment passes through
unchanged. -/
def compute_raw_delta_state (A : AngleDec) (env : FusionEnv)
    (last_out : ℚ × ℚ) (now_ms : ℚ) (cfg : FusionConfig) :
    (ℚ × ℚ) × FusionEnv :=
  (compute_raw_delta A env.pending env.enabled env.lastMotion last_out now_ms cfg,
    env)

/-- A JSON scalar as the trackers see it: either coercible to `float`
(`num`) or not (`nonnum`, where Python `float(x)` raises). -/
inductive JVal where
  | num (q : ℚ)
  | nonnum
deriving DecidableEq, Repr

/-- An `imu.sample` payload dict; each field is absent (`none`) or a JSON
scalar.  Only the fields the three trackers read are modelled. -/
structure Sample where
  ts : Option JVal := none
  ax : Option JVal := none
  ay : Option JVal := none
  gy : Option JVal := none
  gz : Option JVal := none
  beta : Option JVal := none
  gamma : Option JVal := none
deriving DecidableEq, Repr

/-- `_parse_ts_ms` from `imu.py`: `None` when `ts` is missing or `float(ts)`
raises. -/
def parse_ts_ms (sample : Sample) : Option ℚ :=
  match sample.ts with
  | none => none
  | some (JVal.num q) => some q
  | some JVal.nonnum => none

/-- `AccelTracker` constructor parameters with their defaults. -/
structure AccelConfig where
  accel_gain : ℚ := 50
  friction : ℚ := 0.8
  hp_tau_s : ℚ := 0.35
  deadzone_mps2 : ℚ := 0.08
  start_mps2 : ℚ := 0.22
deriving DecidableEq, Repr

/-- `AccelTracker` mutable state; the initial state is all defaults. -/
structure AccelState where
  vx : ℚ := 0
  vy : ℚ := 0
  last_ts_ms : Option ℚ := none
  prev_ax : Option ℚ := none
  prev_ay : Option ℚ := none
  hp_ax : ℚ := 0
  hp_ay : ℚ := 0
deriving DecidableEq, Repr

/-- `AccelTracker.process_sample` from `imu.py` (lines 57-129), returning the
emitted `MotionDelta` and the successor state. -/
def AccelTracker.process_sample (cfg : AccelConfig) (st : AccelState)
    (sample : Sample) : MotionDelta × AccelState :=
  match parse_ts_ms sample, sample.ax, sample.ay with
  | none, _, _ => (⟨0, 0, 0, false⟩, st)
  | some _, none, _ => (⟨0, 0, 0, false⟩, st)
  | some _, _, none => (⟨0, 0, 0, false⟩, st)
  | some ts, some axv, some ayv =>
    match axv, ayv with
    | JVal.nonnum, _ => (⟨0, 0, ts, false⟩, st)
    | _, JVal.nonnum => (⟨0, 0, ts, false⟩, st)
    | JVal.num ax_f, JVal.num ay_f =>
      match st.last_ts_ms with
      | none =>
        (⟨0, 0, ts, false⟩,
          { st with last_ts_ms := some ts, prev_ax := some ax_f,
                    prev_ay := some ay_f })
      | some lastTs =>
        let dt := (ts - lastTs) / 1000
        if dt ≤ 0 ∨ 0.2 < dt then
          (⟨0, 0, ts, false⟩,
            { vx := 0, vy := 0, last_ts_ms := some ts,
              prev_ax := some ax_f, prev_ay := some ay_f,
              hp_ax := 0, hp_ay := 0 })
        else
          match st.prev_ax, st.prev_ay with
          | none, _ =>
            (⟨0, 0, ts, false⟩,
              { st with last_ts_ms := some ts, prev_ax := some ax_f,
                        prev_ay := some ay_f })
          | _, none =>
            (⟨0, 0, ts, false⟩,
              { st with last_ts_ms := some ts, prev_ax := some ax_f,
                        prev_ay := some ay_f })
          | some pax, some pay =>
            let hpOn := 0 < cfg.hp_tau_s
            let hp_ax1 := if hpOn then
                (cfg.hp_tau_s / (cfg.hp_tau_s + dt)) * (st.hp_ax + ax_f - pax)
              else st.hp_ax
            let hp_ay1 := if hpOn then
                (cfg.hp_tau_s / (cfg.hp_tau_s + dt)) * (st.hp_ay + ay_f - pay)
              else st.hp_ay
            let ax_in0 := if hpOn then hp_ax1 else ax_f
            let ay_in0 := if hpOn then hp_ay1 else ay_f
            let dz := 0 < cfg.deadzone_mps2 ∧
              hypotLt ax_in0 ay_in0 cfg.deadzone_mps2 = true
            let ax_in1 := if dz then 0 else ax_in0
            let ay_in1 := if dz then 0 else ay_in0
            let atRest := st.vx = 0 ∧ st.vy = 0 ∧ 0 < cfg.start_mps2 ∧
              hypotLt ax_in1 ay_in1 cfg.start_mps2 = true
            let ax_in2 := if atRest then 0 else ax_in1
            let ay_in2 := if atRest then 0 else ay_in1
            let vx1 := st.vx * cfg.friction + ax_in2 * dt * cfg.accel_gain
            let vy1 := st.vy * cfg.friction + ay_in2 * dt * cfg.accel_gain
            let vx2 := if st.vx ≠ 0 ∧ decide (0 < st.vx) ≠ decide (0 < vx1)
              then 0 else vx1
            let vy2 := if st.vy ≠ 0 ∧ decide (0 < st.vy) ≠ decide (0 < vy1)
              then 0 else vy1
            (⟨vx2 * dt, vy2 * dt, ts, true⟩,
              { vx := vx2, vy := vy2, last_ts_ms := some ts,
                prev_ax := some ax_f, prev_ay := some ay_f,
                hp_ax := hp_ax1, hp_ay := hp_ay1 })

/-- `GyroTracker` constructor parameters with their defaults. -/
structure GyroConfig where
  gyro_gain : ℚ := 0.7
  friction : ℚ := 0.86
deriving DecidableEq, Repr

/-- `GyroTracker` mutable state. -/
structure GyroState where
  vx : ℚ := 0
  vy : ℚ := 0
  last_ts_ms : Option ℚ := none
deriving DecidableEq, Repr

/-- `GyroTracker.process_sample` from `imu.py` (lines 145-176). -/
def GyroTracker.process_sample (cfg : GyroConfig) (st : GyroState)
    (sample : Sample) : MotionDelta × GyroState :=
  match parse_ts_ms sample, sample.gy, sample.gz with
  | none, _, _ => (⟨0, 0, 0, false⟩, st)
  | some _, none, _ => (⟨0, 0, 0, false⟩, st)
  | some _, _, none => (⟨0, 0, 0, false⟩, st)
  | some ts, some gyv, some gzv =>
    match gyv, gzv with
    | JVal.nonnum, _ => (⟨0, 0, ts, false⟩, st)
    | _, JVal.nonnum => (⟨0, 0, ts, false⟩, st)
    | JVal.num gy_f, JVal.num gz_f =>
      match st.last_ts_ms with
      | none => (⟨0, 0, ts, false⟩, { st with last_ts_ms := some ts })
      | some lastTs =>
        let dt := (ts - lastTs) / 1000
        if dt ≤ 0 ∨ 0.2 < dt then
          (⟨0, 0, ts, false⟩, { st with last_ts_ms := some ts })
        else
          let vx1 := st.vx * cfg.friction + gz_f * dt * cfg.gyro_gain
          let vy1 := st.vy * cfg.friction + gy_f * dt * cfg.gyro_gain
          let vx2 := if st.vx ≠ 0 ∧ decide (0 < st.vx) ≠ decide (0 < vx1)
            then 0 else vx1
          let vy2 := if st.vy ≠ 0 ∧ decide (0 < st.vy) ≠ decide (0 < vy1)
            then 0 else vy1
          (⟨vx2 * dt, vy2 * dt, ts, true⟩,
            { vx := vx2, vy := vy2, last_ts_ms := some ts })

/-- `OrientationTracker` constructor parameters with their defaults. -/
structure OrientConfig where
  gain : ℚ := 0.9
  friction : ℚ := 0.9
deriving DecidableEq, Repr

/-- `OrientationTracker` mutable state. -/
structure OrientState where
  vx : ℚ := 0
  vy : ℚ := 0
  last_ts_ms : Option ℚ := none
  last_beta : Option ℚ := none
  last_gamma : Option ℚ := none
deriving DecidableEq, Repr

/-- `OrientationTracker._wrap_deg` from `imu.py`:
`(delta + 180.0) % 360.0 - 180.0` with the Python float `%`
(`x % m = x − m·⌊x/m⌋`, in `[0, m)` for `m > 0`). -/
def wrap_deg (delta : ℚ) : ℚ :=
  (delta + 180) - 360 * (⌊(delta + 180) / 360⌋ : ℤ) - 180

/-- `OrientationTracker.process_sample` from `imu.py` (lines 201-234). -/
def OrientationTracker.process_sample (cfg : OrientConfig) (st : OrientState)
    (sample : Sample) : MotionDelta × OrientState :=
  match parse_ts_ms sample, sample.beta, sample.gamma with
  | none, _, _ => (⟨0, 0, 0, false⟩, st)
  | some _, none, _ => (⟨0, 0, 0, false⟩, st)
  | some _, _, none => (⟨0, 0, 0, false⟩, st)
  | some ts, some bv, some gv =>
    match bv, gv with
    | JVal.nonnum, _ => (⟨0, 0, ts, false⟩, st)
    | _, JVal.nonnum => (⟨0, 0, ts, false⟩, st)
    | JVal.num beta_f, JVal.num gamma_f =>
      match st.last_ts_ms, st.last_beta, st.last_gamma with
      | none, _, _ =>
        (⟨0, 0, ts, false⟩,
          { st with last_ts_ms := some ts, last_beta := some beta_f,
                    last_gamma := some gamma_f })
      | _, none, _ =>
        (⟨0, 0, ts, false⟩,
          { st with last_ts_ms := some ts, last_beta := some beta_f,
                    last_gamma := some gamma_f })
      | _, _, none =>
        (⟨0, 0, ts, false⟩,
          { st with last_ts_ms := some ts, last_beta := some beta_f,
                    last_gamma := some gamma_f })
      | some lastTs, some lastBeta, some lastGamma =>
        let dt := (ts - lastTs) / 1000
        if dt ≤ 0 ∨ 0.2 < dt then
          (⟨0, 0, ts, false⟩,
            { st with last_ts_ms := some ts, last_beta := some beta_f,
                      last_gamma := some gamma_f })
        else
          let d_beta := wrap_deg (beta_f - lastBeta)
          let d_gamma := wrap_deg (gamma_f - lastGamma)
          let vx1 := st.vx * cfg.friction + d_gamma * cfg.gain
          let vy1 := st.vy * cfg.friction + d_beta * cfg.gain
          (⟨vx1, vy1, ts, true⟩,
            { vx := vx1, vy := vy1, last_ts_ms := some ts,
              last_beta := some beta_f, last_gamma := some gamma_f })

/-- `SmoothingConfig` from `smoothing.py`, with its defaults. -/
structure SmoothingConfig where
  half_life_ms : ℚ := 0
  deadzone_px : ℚ := 0
  max_step_px : ℚ := 120
deriving DecidableEq, Repr

/-- `MotionSmoother` mutable state (`_sx`, `_sy`). -/
structure SmootherState where
  sx : ℚ := 0
  sy : ℚ := 0
deriving DecidableEq, Repr

/-- `MotionSmoother.apply` from `smoothing.py` (lines 34-55).  The smoothing
coefficient `alpha = 1 − exp(−ln 2 · dt_s·1000 / half_life_ms)` is
transcendental, so it is supplied by the `alphaf` parameter (a function of
`dt_s` and `half_life_ms` modelling that expression); the filter, deadzone
and clamp stages are translated exactly. -/
def MotionSmoother.apply (alphaf : ℚ → ℚ → ℚ) (cfg : SmoothingConfig)
    (st : SmootherState) (dx dy dt_s : ℚ) : (ℚ × ℚ) × SmootherState :=
  let passThrough := dt_s ≤ 0 ∨ cfg.half_life_ms ≤ 0
  let sx0 := if passThrough then dx
    else st.sx + (dx - st.sx) * alphaf dt_s cfg.half_life_ms
  let sy0 := if passThrough then dy
    else st.sy + (dy - st.sy) * alphaf dt_s cfg.half_life_ms
  let st1 := if passThrough then st else ⟨sx0, sy0⟩
  if 0 < cfg.deadzone_px ∧ hypotLt sx0 sy0 cfg.deadzone_px = true then
    ((0, 0), ⟨0, 0⟩)
  else if 0 < cfg.max_step_px then
    let sx1 := max (-cfg.max_step_px) (min cfg.max_step_px sx0)
    let sy1 := max (-cfg.max_step_px) (min cfg.max_step_px sy0)
    ((sx1, sy1), ⟨sx1, sy1⟩)
  else ((sx0, sy0), st1)

/-! ## Helper lemmas -/

theorem imu_source_cases {ps : String} (h : ps ∈ IMU_SOURCES) :
    ps = "accel" ∨ ps = "gyro" ∨ ps = "orientation" := by
  simpa [IMU_SOURCES] using h

theorem imu_not_camera {ps : String} (h : ps ∈ IMU_SOURCES) : ps ≠ "camera" := by
  rcases imu_source_cases h with h1 | h1 | h1 <;> subst h1 <;> decide

theorem imu_not_auth {ps : String} (h : ps ∈ IMU_SOURCES) :
    ps ∉ AUTHORITATIVE_SOURCES := by
  rcases imu_source_cases h with h1 | h1 | h1 <;> subst h1 <;> decide

theorem abs_clamp_le (m x : ℚ) (hm : 0 < m) : |max (-m) (min m x)| ≤ m := by
  rw [abs_le]
  exact ⟨le_max_left _ _, max_le (by linarith) (min_le_left _ _)⟩

theorem clamp_sign_aux (pv v1 : ℚ) :
    0 ≤ (if pv ≠ 0 ∧ decide (0 < pv) ≠ decide (0 < v1) then 0 else v1) * pv := by
  by_cases h : pv ≠ 0 ∧ decide (0 < pv) ≠ decide (0 < v1)
  · simp [h]
  · rw [if_neg h]
    push_neg at h
    by_cases hz : pv = 0
    · simp [hz]
    · have heq := h hz
      by_cases hp : 0 < pv
      · have hd : decide (0 < v1) = true := by
          rw [← heq]
          simp [hp]
        have hv1 : 0 < v1 := of_decide_eq_true hd
        exact mul_nonneg hv1.le hp.le
      · have hnp : pv < 0 := lt_of_le_of_ne (not_lt.mp hp) hz
        have hd : decide (0 < v1) = false := by
          rw [← heq]
          simp [hp]
        have hv1 : ¬0 < v1 := of_decide_eq_false hd
        nlinarith [not_lt.mp hv1]

/-! ## Claims -/

/-- Claim C5 (consensus self-count): for every primary `MotionDelta` with
`valid = true` and `hypot(dx, dy) < min_mag`, and every validator list,
oracle and remaining parameters, `majority_validate_direction` returns
`ok = true`, `total_votes = 1`, `yes_votes = 1`. -/
theorem consensus_self_count (A : AngleDec) (primary : MotionDelta)
    (validators : List MotionDelta) (max_age_ms min_mag max_angle_deg : ℚ)
    (hvalid : primary.valid = true)
    (hmag : Real.sqrt ((primary.dx : ℝ) ^ 2 + (primary.dy : ℝ) ^ 2) < (min_mag : ℝ)) :
    majority_validate_direction A primary validators max_age_ms min_mag
      max_angle_deg = ⟨true, 1, 1⟩ := by
  have h := (hypotLt_iff primary.dx primary.dy min_mag).mpr hmag
  rw [majority_validate_direction, hvalid]
  simp [h]

theorem consensus_self_count_witness :
    (⟨0, 0, 7, true⟩ : MotionDelta).valid = true ∧
    majority_validate_direction (fun p v d => Classical.propDecidable (angleOk p v d))
      ⟨0, 0, 7, true⟩ [⟨5, 5, 7, true⟩, ⟨-3, 0, 7, false⟩] 140 (1/100) 40 =
      ⟨true, 1, 1⟩ := by
  refine ⟨rfl, consensus_self_count _ _ _ _ _ _ rfl ?_⟩
  norm_num [Real.sqrt_zero]

/-- Claim C7 (smoother bound): for every smoothing configuration with
`max_step_px > 0`, every smoothing-coefficient model, every state and every
input, both components of the output of `MotionSmoother.apply` are bounded by
`max_step_px` in absolute value; hence every output of any input sequence is
so bounded. -/
theorem smoother_bound (alphaf : ℚ → ℚ → ℚ) (cfg : SmoothingConfig)
    (st : SmootherState) (dx dy dt_s : ℚ) (hstep : 0 < cfg.max_step_px) :
    |(MotionSmoother.apply alphaf cfg st dx dy dt_s).1.1| ≤ cfg.max_step_px ∧
    |(MotionSmoother.apply alphaf cfg st dx dy dt_s).1.2| ≤ cfg.max_step_px := by
  rw [MotionSmoother.apply]
  by_cases hdz : 0 < cfg.deadzone_px ∧
      hypotLt (if dt_s ≤ 0 ∨ cfg.half_life_ms ≤ 0 then dx
        else st.sx + (dx - st.sx) * alphaf dt_s cfg.half_life_ms)
        (if dt_s ≤ 0 ∨ cfg.half_life_ms ≤ 0 then dy
        else st.sy + (dy - st.sy) * alphaf dt_s cfg.half_life_ms)
        cfg.deadzone_px = true
  · simp only [hdz, if_true, if_pos]
    constructor <;> simpa using hstep.le
  · simp only [if_neg hdz, hstep, if_pos]
    exact ⟨abs_clamp_le _ _ hstep, abs_clamp_le _ _ hstep⟩

theorem smoother_bound_witness :
    (0 : ℚ) < ({ } : SmoothingConfig).max_step_px ∧
    |(MotionSmoother.apply (fun _ _ => 0) { } ⟨0, 0⟩ 500 (-500) (1/250)).1.1| ≤
      ({ } : SmoothingConfig).max_step_px ∧
    |(MotionSmoother.apply (fun _ _ => 0) { } ⟨0, 0⟩ 500 (-500) (1/250)).1.2| ≤
      ({ } : SmoothingConfig).max_step_px :=
  ⟨by decide, smoother_bound (fun _ _ => 0) { } ⟨0, 0⟩ 500 (-500) (1/250) (by decide)⟩

/-- Claim C10 (no mutation): `compute_raw_delta` only reads the `pending`,
`enabled` and `last_motion` dicts it is given; threading them through the
call returns them unchanged, so a fusion tick cannot corrupt the shared
session state it reads. -/
theorem compute_raw_delta_no_mutation (A : AngleDec) (env : FusionEnv)
    (last_out : ℚ × ℚ) (now_ms : ℚ) (cfg : FusionConfig) :
    (compute_raw_delta_state A env last_out now_ms cfg).2 = env := rfl

/-- The transient-input fault class for `AccelTracker`: `ts` missing or
non-numeric, or `ax`/`ay` missing or non-numeric. -/
def accelBadInput (sample : Sample) : Prop :=
  parse_ts_ms sample = none ∨ sample.ax = none ∨ sample.ay = none ∨
    sample.ax = some JVal.nonnum ∨ sample.ay = some JVal.nonnum

instance (sample : Sample) : Decidable (accelBadInput sample) := by
  unfold accelBadInput
  infer_instance

/-- The transient-input fault class for `GyroTracker`. -/
def gyroBadInput (sample : Sample) : Prop :=
  parse_ts_ms sample = none ∨ sample.gy = none ∨ sample.gz = none ∨
    sample.gy = some JVal.nonnum ∨ sample.gz = some JVal.nonnum

instance (sample : Sample) : Decidable (gyroBadInput sample) := by
  unfold gyroBadInput
  infer_instance

/-- The transient-input fault class for `OrientationTracker`. -/
def orientBadInput (sample : Sample) : Prop :=
  parse_ts_ms sample = none ∨ sample.beta = none ∨ sample.gamma = none ∨
    sample.beta = some JVal.nonnum ∨ sample.gamma = some JVal.nonnum

instance (sample : Sample) : Decidable (orientBadInput sample) := by
  unfold orientBadInput
  infer_instance

theorem accel_bad_input (cfg : AccelConfig) (st : AccelState) (sample : Sample)
    (h : accelBadInput sample) :
    (AccelTracker.process_sample cfg st sample).1.valid = false ∧
    (AccelTracker.process_sample cfg st sample).2 = st := by
  rcases h with h | h | h | h | h
  · simp [AccelTracker.process_sample, h]
  · rcases hts : parse_ts_ms sample with _ | ts <;>
      simp [AccelTracker.process_sample, hts, h]
  · rcases hts : parse_ts_ms sample with _ | ts <;>
      rcases hax : sample.ax with _ | xv <;>
      simp [AccelTracker.process_sample, hts, hax, h]
  · rcases hts : parse_ts_ms sample with _ | ts
    · simp [AccelTracker.process_sample, hts]
    · rcases hay : sample.ay with _ | yv <;>
        simp [AccelTracker.process_sample, hts, h, hay]
  · rcases hts : parse_ts_ms sample with _ | ts
    · simp [AccelTracker.process_sample, hts]
    · rcases hax : sample.ax with _ | xv
      · simp [AccelTracker.process_sample, hts, hax]
      · rcases xv <;> simp [AccelTracker.process_sample, hts, hax, h]

theorem gyro_bad_input (cfg : GyroConfig) (st : GyroState) (sample : Sample)
    (h : gyroBadInput sample) :
    (GyroTracker.process_sample cfg st sample).1.valid = false ∧
    (GyroTracker.process_sample cfg st sample).2 = st := by
  rcases h with h | h | h | h | h
  · simp [GyroTracker.process_sample, h]
  · rcases hts : parse_ts_ms sample with _ | ts <;>
      simp [GyroTracker.process_sample, hts, h]
  · rcases hts : parse_ts_ms sample with _ | ts <;>
      rcases hgy : sample.gy with _ | xv <;>
      simp [GyroTracker.process_sample, hts, hgy, h]
  · rcases hts : parse_ts_ms sample with _ | ts
    · simp [GyroTracker.process_sample, hts]
    · rcases hgz : sample.gz with _ | yv <;>
        simp [GyroTracker.process_sample, hts, h, hgz]
  · rcases hts : parse_ts_ms sample with _ | ts
    · simp [GyroTracker.process_sample, hts]
    · rcases hgy : sample.gy with _ | xv
      · simp [GyroTracker.process_sample, hts, hgy]
      · rcases xv <;> simp [GyroTracker.process_sample, hts, hgy, h]

theorem orient_bad_input (cfg : OrientConfig) (st : OrientState) (sample : Sample)
    (h : orientBadInput sample) :
    (OrientationTracker.process_sample cfg st sample).1.valid = false ∧
    (OrientationTracker.process_sample cfg st sample).2 = st := by
  rcases h with h | h | h | h | h
  · simp [OrientationTracker.process_sample, h]
  · rcases hts : parse_ts_ms sample with _ | ts <;>
      simp [OrientationTracker.process_sample, hts, h]
  · rcases hts : parse_ts_ms sample with _ | ts <;>
      rcases hb : sample.beta with _ | xv <;>
      simp [OrientationTracker.process_sample, hts, hb, h]
  · rcases hts : parse_ts_ms sample with _ | ts
    · simp [OrientationTracker.process_sample, hts]
    · rcases hg : sample.gamma with _ | yv <;>
        simp [OrientationTracker.process_sample, hts, h, hg]
  · rcases hts : parse_ts_ms sample with _ | ts
    · simp [OrientationTracker.process_sample, hts]
    · rcases hb : sample.beta with _ | xv
      · simp [OrientationTracker.process_sample, hts, hb]
      · rcases xv <;> simp [OrientationTracker.process_sample, hts, hb, h]

/-- Claim C9 (transient-input atomicity): for each tracker, a sample whose
`ts` is missing or non-numeric, or whose required components (`ax`/`ay`,
`gy`/`gz`, `beta`/`gamma` respectively) are missing or non-numeric, makes
`process_sample` return `valid = false` and leaves the tracker state exactly
unchanged. -/
theorem tracker_transient_input
    (ca : AccelConfig) (sa : AccelState) (pa : Sample)
    (cg : GyroConfig) (sg : GyroState) (pg : Sample)
    (co : OrientConfig) (so : OrientState) (po : Sample)
    (ha : accelBadInput pa) (hg : gyroBadInput pg) (ho : orientBadInput po) :
    (AccelTracker.process_sample ca sa pa).1.valid = false ∧
    (AccelTracker.process_sample ca sa pa).2 = sa ∧
    (GyroTracker.process_sample cg sg pg).1.valid = false ∧
    (GyroTracker.process_sample cg sg pg).2 = sg ∧
    (OrientationTracker.process_sample co so po).1.valid = false ∧
    (OrientationTracker.process_sample co so po).2 = so := by
  obtain ⟨a1, a2⟩ := accel_bad_input ca sa pa ha
  obtain ⟨g1, g2⟩ := gyro_bad_input cg sg pg hg
  obtain ⟨o1, o2⟩ := orient_bad_input co so po ho
  exact ⟨a1, a2, g1, g2, o1, o2⟩

theorem tracker_transient_input_witness :
    (accelBadInput ⟨some JVal.nonnum, some (JVal.num 1), some (JVal.num 2),
        none, none, none, none⟩ ∧
      gyroBadInput ⟨some (JVal.num 5), none, none, some (JVal.num 1), none,
        none, none⟩ ∧
      orientBadInput ⟨some (JVal.num 5), none, none, none, none,
        some JVal.nonnum, some (JVal.num 3)⟩) ∧
    ((AccelTracker.process_sample { } ⟨1, 2, some 3, some 4, some 5, 6, 7⟩
        ⟨some JVal.nonnum, some (JVal.num 1), some (JVal.num 2),
          none, none, none, none⟩).1.valid = false ∧
      (AccelTracker.process_sample { } ⟨1, 2, some 3, some 4, some 5, 6, 7⟩
        ⟨some JVal.nonnum, some (JVal.num 1), some (JVal.num 2),
          none, none, none, none⟩).2 = ⟨1, 2, some 3, some 4, some 5, 6, 7⟩ ∧
      (GyroTracker.process_sample { } ⟨1, 2, some 3⟩
        ⟨some (JVal.num 5), none, none, some (JVal.num 1), none,
          none, none⟩).1.valid = false ∧
      (GyroTracker.process_sample { } ⟨1, 2, some 3⟩
        ⟨some (JVal.num 5), none, none, some (JVal.num 1), none,
          none, none⟩).2 = ⟨1, 2, some 3⟩ ∧
      (OrientationTracker.process_sample { } ⟨1, 2, some 3, some 4, some 5⟩
        ⟨some (JVal.num 5), none, none, none, none,
          some JVal.nonnum, some (JVal.num 3)⟩).1.valid = false ∧
      (OrientationTracker.process_sample { } ⟨1, 2, some 3, some 4, some 5⟩
        ⟨some (JVal.num 5), none, none, none, none,
          some JVal.nonnum, some (JVal.num 3)⟩).2 = ⟨1, 2, some 3, some 4, some 5⟩) :=
  ⟨⟨by decide, by decide, by decide⟩,
    tracker_transient_input { } ⟨1, 2, some 3, some 4, some 5, 6, 7⟩ _
      { } ⟨1, 2, some 3⟩ _ { } ⟨1, 2, some 3, some 4, some 5⟩ _
      (by decide) (by decide) (by decide)⟩

/-- Claim C2, amended (monotone dt gate): in each of the three trackers, a
numeric sample whose `dt` relative to the stored last timestamp satisfies
`dt ≤ 0` or `dt > 0.2 s` makes `process_sample` return `valid = false` for
that sample.  (The original claim also asserted that the immediately
following sample returns `valid = false`; the code stores the gap sample's
timestamp and previous-input values during the gate reset, so a following
sample with a normal `dt` is processed normally and returns `valid = true` —
see the counterexample.) -/
theorem tracker_dt_gate
    (ca : AccelConfig) (sa : AccelState) (t1 tsa axv ayv : ℚ)
    (cg : GyroConfig) (sg : GyroState) (t2 tsg gyv gzv : ℚ)
    (co : OrientConfig) (so : OrientState) (t3 b0 g0 tso bv gv : ℚ)
    (hla : sa.last_ts_ms = some t1)
    (hda : (tsa - t1) / 1000 ≤ 0 ∨ 0.2 < (tsa - t1) / 1000)
    (hlg : sg.last_ts_ms = some t2)
    (hdg : (tsg - t2) / 1000 ≤ 0 ∨ 0.2 < (tsg - t2) / 1000)
    (hlo : so.last_ts_ms = some t3) (hbo : so.last_beta = some b0)
    (hgo : so.last_gamma = some g0)
    (hdo : (tso - t3) / 1000 ≤ 0 ∨ 0.2 < (tso - t3) / 1000) :
    (AccelTracker.process_sample ca sa
      ⟨some (JVal.num tsa), some (JVal.num axv), some (JVal.num ayv),
        none, none, none, none⟩).1.valid = false ∧
    (GyroTracker.process_sample cg sg
      ⟨some (JVal.num tsg), none, none, some (JVal.num gyv),
        some (JVal.num gzv), none, none⟩).1.valid = false ∧
    (OrientationTracker.process_sample co so
      ⟨some (JVal.num tso), none, none, none, none, some (JVal.num bv),
        some (JVal.num gv)⟩).1.valid = false := by
  refine ⟨?_, ?_, ?_⟩
  · simp only [AccelTracker.process_sample, parse_ts_ms, hla]
    rw [if_pos hda]
  · simp only [GyroTracker.process_sample, parse_ts_ms, hlg]
    rw [if_pos hdg]
  · simp only [OrientationTracker.process_sample, parse_ts_ms, hlo, hbo, hgo]
    rw [if_pos hdo]


theorem tracker_dt_gate_witness :
    (((900 : ℚ) - 1000) / 1000 ≤ 0 ∧
      (0.2 : ℚ) < ((500 : ℚ) - 50) / 1000 ∧
      ((10 : ℚ) - 10) / 1000 ≤ 0) ∧
    ((AccelTracker.process_sample { } ⟨0, 0, some 1000, some 0, some 0, 0, 0⟩
      ⟨some (JVal.num 900), some (JVal.num 0), some (JVal.num 0),
        none, none, none, none⟩).1.valid = false ∧
    (GyroTracker.process_sample { } ⟨0, 0, some 50⟩
      ⟨some (JVal.num 500), none, none, some (JVal.num 1),
        some (JVal.num 2), none, none⟩).1.valid = false ∧
    (OrientationTracker.process_sample { } ⟨0, 0, some 10, some 1, some 2⟩
      ⟨some (JVal.num 10), none, none, none, none, some (JVal.num 1),
        some (JVal.num 2)⟩).1.valid = false) :=
  ⟨⟨by norm_num, by norm_num, by norm_num⟩,
    tracker_dt_gate { } ⟨0, 0, some 1000, some 0, some 0, 0, 0⟩ 1000 900 0 0
      { } ⟨0, 0, some 50⟩ 50 500 1 2
      { } ⟨0, 0, some 10, some 1, some 2⟩ 10 1 2 10 1 2
      rfl (Or.inl (by norm_num)) rfl (Or.inr (by norm_num)) rfl rfl rfl
      (Or.inl (by norm_num))⟩

/-- Counterexample to claim C2 as stated: in `AccelTracker`, after the gap
sample (`dt = −0.1 s ≤ 0`, which returns `valid = false`), the immediately
following sample with a normal `dt = 0.1 s` returns `valid = true`, because
the gate reset stored the gap sample's timestamp and previous inputs. -/
theorem tracker_dt_gate_cex :
    (((900 : ℚ) - 1000) / 1000 ≤ 0) ∧
    (AccelTracker.process_sample { }
      (AccelTracker.process_sample { } { }
        ⟨some (JVal.num 1000), some (JVal.num 0), some (JVal.num 0),
          none, none, none, none⟩).2
      ⟨some (JVal.num 900), some (JVal.num 0), some (JVal.num 0),
        none, none, none, none⟩).1.valid = false ∧
    (AccelTracker.process_sample { }
      (AccelTracker.process_sample { }
        (AccelTracker.process_sample { } { }
          ⟨some (JVal.num 1000), some (JVal.num 0), some (JVal.num 0),
            none, none, none, none⟩).2
        ⟨some (JVal.num 900), some (JVal.num 0), some (JVal.num 0),
          none, none, none, none⟩).2
      ⟨some (JVal.num 1000), some (JVal.num 0), some (JVal.num 0),
        none, none, none, none⟩).1.valid = true := by
  have h1 : AccelTracker.process_sample { } { }
      ⟨some (JVal.num 1000), some (JVal.num 0), some (JVal.num 0),
        none, none, none, none⟩ =
      (⟨0, 0, 1000, false⟩, ⟨0, 0, some 1000, some 0, some 0, 0, 0⟩) := rfl
  have hc2 : ((900 : ℚ) - 1000) / 1000 ≤ 0 ∨
      (0.2 : ℚ) < ((900 : ℚ) - 1000) / 1000 := Or.inl (by norm_num)
  have h2 : AccelTracker.process_sample { }
      (⟨0, 0, some 1000, some 0, some 0, 0, 0⟩ : AccelState)
      ⟨some (JVal.num 900), some (JVal.num 0), some (JVal.num 0),
        none, none, none, none⟩ =
      (⟨0, 0, 900, false⟩, ⟨0, 0, some 900, some 0, some 0, 0, 0⟩) := by
    simp only [AccelTracker.process_sample, parse_ts_ms]
    rw [if_pos hc2]
  have hc3 : ¬(((1000 : ℚ) - 900) / 1000 ≤ 0 ∨
      (0.2 : ℚ) < ((1000 : ℚ) - 900) / 1000) := by
    push_neg
    constructor <;> norm_num
  have h3 : (AccelTracker.process_sample { }
      (⟨0, 0, some 900, some 0, some 0, 0, 0⟩ : AccelState)
      ⟨some (JVal.num 1000), some (JVal.num 0), some (JVal.num 0),
        none, none, none, none⟩).1.valid = true := by
    simp only [AccelTracker.process_sample, parse_ts_ms]
    rw [if_neg hc3]
  refine ⟨by norm_num, ?_, ?_⟩
  · rw [h1, h2]
  · rw [h1, h2]
    exact h3

/-- Claim C6, amended (orientation wrap): the wrapped angle differences
computed by `OrientationTracker` via `_wrap_deg` lie in the half-open
interval `[−180, 180)` (the original claim said `(−180, 180]`; the Python
float `%` puts `(delta + 180) % 360` in `[0, 360)`, so `delta ≡ 180 (mod
360)` wraps to `−180`, not `+180` — see the counterexample).  In particular
`beta = 179` followed by `beta = −179` ten milliseconds later is accepted
and yields `d_beta = +2` (not `−358`), visible as `dy = d_beta · gain`. -/
theorem orientation_wrap_range :
    (∀ d : ℚ, -180 ≤ wrap_deg d ∧ wrap_deg d < 180) ∧
    (wrap_deg ((-179) - 179) = 2 ∧
      (OrientationTracker.process_sample { }
        (OrientationTracker.process_sample { } { }
          ⟨some (JVal.num 0), none, none, none, none, some (JVal.num 179),
            some (JVal.num 0)⟩).2
        ⟨some (JVal.num 10), none, none, none, none, some (JVal.num (-179)),
          some (JVal.num 0)⟩).1.valid = true ∧
      (OrientationTracker.process_sample { }
        (OrientationTracker.process_sample { } { }
          ⟨some (JVal.num 0), none, none, none, none, some (JVal.num 179),
            some (JVal.num 0)⟩).2
        ⟨some (JVal.num 10), none, none, none, none, some (JVal.num (-179)),
          some (JVal.num 0)⟩).1.dy = wrap_deg ((-179) - 179) * 0.9) := by
  have hrange : ∀ d : ℚ, -180 ≤ wrap_deg d ∧ wrap_deg d < 180 := by
    intro d
    have hfl := Int.floor_le ((d + 180) / 360)
    have hfu := Int.lt_floor_add_one ((d + 180) / 360)
    have hq : d + 180 = 360 * ((d + 180) / 360) := by ring
    rw [wrap_deg]
    constructor <;> nlinarith [hfl, hfu, hq]
  have h1 : OrientationTracker.process_sample { } { }
      ⟨some (JVal.num 0), none, none, none, none, some (JVal.num 179),
        some (JVal.num 0)⟩ =
      (⟨0, 0, 0, false⟩, ⟨0, 0, some 0, some 179, some 0⟩) := rfl
  have hc : ¬(((10 : ℚ) - 0) / 1000 ≤ 0 ∨ (0.2 : ℚ) < ((10 : ℚ) - 0) / 1000) := by
    push_neg
    constructor <;> norm_num
  refine ⟨hrange, ?_, ?_, ?_⟩
  · have hf : ⌊((((-179 : ℚ)) - 179 + 180) / 360)⌋ = -1 := by
      rw [Int.floor_eq_iff]
      constructor <;> norm_num
    rw [wrap_deg, hf]
    norm_num
  · rw [h1]
    simp only [OrientationTracker.process_sample, parse_ts_ms]
    rw [if_neg hc]
  · rw [h1]
    simp only [OrientationTracker.process_sample, parse_ts_ms]
    rw [if_neg hc]
    ring

/-- Counterexample to claim C6 as stated: consecutive accepted orientation
samples `beta = 0` then `beta = 180` produce the wrapped difference
`d_beta = −180`, which is outside the claimed interval `(−180, 180]`
(visible as `dy = −180 · 0.9 = −162`). -/
theorem orientation_wrap_cex :
    wrap_deg (180 - 0) = -180 ∧
    ¬(-180 < wrap_deg (180 - 0)) ∧
    (OrientationTracker.process_sample { }
      (OrientationTracker.process_sample { } { }
        ⟨some (JVal.num 0), none, none, none, none, some (JVal.num 0),
          some (JVal.num 0)⟩).2
      ⟨some (JVal.num 10), none, none, none, none, some (JVal.num 180),
        some (JVal.num 0)⟩).1.valid = true ∧
    (OrientationTracker.process_sample { }
      (OrientationTracker.process_sample { } { }
        ⟨some (JVal.num 0), none, none, none, none, some (JVal.num 0),
          some (JVal.num 0)⟩).2
      ⟨some (JVal.num 10), none, none, none, none, some (JVal.num 180),
        some (JVal.num 0)⟩).1.dy = wrap_deg (180 - 0) * 0.9 := by
  have hw : wrap_deg (180 - 0) = -180 := by
    have hf : ⌊(((180 : ℚ) - 0 + 180) / 360)⌋ = 1 := by
      rw [Int.floor_eq_iff]
      constructor <;> norm_num
    rw [wrap_deg, hf]
    norm_num
  have h1 : OrientationTracker.process_sample { } { }
      ⟨some (JVal.num 0), none, none, none, none, some (JVal.num 0),
        some (JVal.num 0)⟩ =
      (⟨0, 0, 0, false⟩, ⟨0, 0, some 0, some 0, some 0⟩) := rfl
  have hc : ¬(((10 : ℚ) - 0) / 1000 ≤ 0 ∨ (0.2 : ℚ) < ((10 : ℚ) - 0) / 1000) := by
    push_neg
    constructor <;> norm_num
  refine ⟨hw, by rw [hw]; exact lt_irrefl _, ?_, ?_⟩
  · rw [h1]
    simp only [OrientationTracker.process_sample, parse_ts_ms]
    rw [if_neg hc]
  · rw [h1]
    simp only [OrientationTracker.process_sample, parse_ts_ms]
    rw [if_neg hc]
    ring

/-- Claim C8 (zero-crossing clamp): whenever `AccelTracker.process_sample`
accepts a sample (returns `valid = true`, i.e. the sample passed the dt gate
and the damping-and-integration update ran), the velocity after the update
never has the opposite sign of the velocity before it:
`vx_after · vx_before ≥ 0` and `vy_after · vy_before ≥ 0`. -/
theorem accel_zero_crossing_clamp (cfg : AccelConfig) (st : AccelState)
    (sample : Sample)
    (hv : (AccelTracker.process_sample cfg st sample).1.valid = true) :
    0 ≤ (AccelTracker.process_sample cfg st sample).2.vx * st.vx ∧
    0 ≤ (AccelTracker.process_sample cfg st sample).2.vy * st.vy := by
  rcases hts : parse_ts_ms sample with _ | ts
  · simp [AccelTracker.process_sample, hts] at hv
  rcases hax : sample.ax with _ | xv
  · simp [AccelTracker.process_sample, hts, hax] at hv
  rcases hay : sample.ay with _ | yv
  · simp [AccelTracker.process_sample, hts, hax, hay] at hv
  rcases xv with q1 | _
  case nonnum => simp [AccelTracker.process_sample, hts, hax, hay] at hv
  rcases yv with q2 | _
  case nonnum => simp [AccelTracker.process_sample, hts, hax, hay] at hv
  rcases hlast : st.last_ts_ms with _ | lt0
  · simp [AccelTracker.process_sample, hts, hax, hay, hlast] at hv
  by_cases hdt : (ts - lt0) / 1000 ≤ 0 ∨ (0.2 : ℚ) < (ts - lt0) / 1000
  · simp only [AccelTracker.process_sample, hts, hax, hay, hlast] at hv
    rw [if_pos hdt] at hv
    simp at hv
  rcases hpax : st.prev_ax with _ | pax
  · simp only [AccelTracker.process_sample, hts, hax, hay, hlast, hpax] at hv
    rw [if_neg hdt] at hv
    simp at hv
  rcases hpay : st.prev_ay with _ | pay
  · simp only [AccelTracker.process_sample, hts, hax, hay, hlast, hpax, hpay] at hv
    rw [if_neg hdt] at hv
    simp at hv
  simp only [AccelTracker.process_sample, hts, hax, hay, hlast, hpax, hpay]
  rw [if_neg hdt]
  exact ⟨clamp_sign_aux _ _, clamp_sign_aux _ _⟩

theorem accel_zero_crossing_clamp_witness :
    (AccelTracker.process_sample { } ⟨1, -2, some 0, some 0, some 0, 0, 0⟩
      ⟨some (JVal.num 100), some (JVal.num 0), some (JVal.num 0),
        none, none, none, none⟩).1.valid = true ∧
    (0 ≤ (AccelTracker.process_sample { } ⟨1, -2, some 0, some 0, some 0, 0, 0⟩
      ⟨some (JVal.num 100), some (JVal.num 0), some (JVal.num 0),
        none, none, none, none⟩).2.vx * (1 : ℚ) ∧
    0 ≤ (AccelTracker.process_sample { } ⟨1, -2, some 0, some 0, some 0, 0, 0⟩
      ⟨some (JVal.num 100), some (JVal.num 0), some (JVal.num 0),
        none, none, none, none⟩).2.vy * (-2 : ℚ)) := by
  have hc : ¬(((100 : ℚ) - 0) / 1000 ≤ 0 ∨ (0.2 : ℚ) < ((100 : ℚ) - 0) / 1000) := by
    push_neg
    constructor <;> norm_num
  have hv : (AccelTracker.process_sample { }
      (⟨1, -2, some 0, some 0, some 0, 0, 0⟩ : AccelState)
      ⟨some (JVal.num 100), some (JVal.num 0), some (JVal.num 0),
        none, none, none, none⟩).1.valid = true := by
    simp only [AccelTracker.process_sample, parse_ts_ms]
    rw [if_neg hc]
  exact ⟨hv, accel_zero_crossing_clamp { }
    ⟨1, -2, some 0, some 0, some 0, 0, 0⟩ _ hv⟩

/-- Claim C1, amended (camera authority): for every pending map whose
`camera` entry survives the zero-filter (accumulated delta `≠ (0,0)`, hence
present in `motions`) while camera is enabled, `compute_raw_delta` returns
exactly the camera's accumulated `(dx, dy)`, independent of every other
pending entry, the last-motion cache, `last_out`, `now_ms`, the fusion
config and the angle oracle.  (The original claim required only that the
key `camera` be present in the pending map; a `(0,0)` camera accumulation
is dropped by the zero-filter at `fusion.py` line 43, letting another source
become primary — see the counterexample.) -/
theorem fusion_camera_authority (A : AngleDec) (pending : List (String × ℚ × ℚ))
    (enabled : List (String × Bool)) (last_motion : List (String × MotionDelta))
    (last_out : ℚ × ℚ) (now_ms : ℚ) (cfg : FusionConfig) (cd : MotionDelta)
    (hcam : alookup (motionsOf pending now_ms) "camera" = some cd)
    (hen : lookupB enabled "camera" = true) :
    compute_raw_delta A pending enabled last_motion last_out now_ms cfg =
      (cd.dx, cd.dy) := by
  have hps : primarySourceOf (motionsOf pending now_ms) = some "camera" := by
    rw [primarySourceOf, priorityOrder]
    simp [firstPriority, hcam]
  rw [compute_raw_delta]
  simp only [hps, hcam, hen]
  norm_num [IMU_SOURCES, AUTHORITATIVE_SOURCES]

/-- Counterexample to claim C1 as stated: with `camera` present in the
pending map but with accumulated delta `(0,0)` (and both sources enabled),
the zero-filter drops it, `accel` becomes primary, and the emitted delta is
the accel delta `(1,0)`, not the camera's `(0,0)`. -/
theorem fusion_camera_authority_cex :
    compute_raw_delta (fun p v d => Classical.propDecidable (angleOk p v d))
      [("camera", (0, 0)), ("accel", (1, 0))]
      [("camera", true), ("accel", true)] [] (0, 0) 0 { } = (1, 0) ∧
    ((1 : ℚ), (0 : ℚ)) ≠ ((0 : ℚ), (0 : ℚ)) := by
  constructor
  · rfl
  · simp

theorem fusion_camera_authority_witness :
    alookup (motionsOf [("camera", (3, 4)), ("accel", (1, 0))] 123) "camera" =
      some ⟨3, 4, 123, true⟩ ∧
    lookupB [("camera", true)] "camera" = true ∧
    compute_raw_delta (fun p v d => Classical.propDecidable (angleOk p v d))
      [("camera", (3, 4)), ("accel", (1, 0))] [("camera", true)]
      [("accel", ⟨9, 9, 50, true⟩)] (5, 5) 123 { } = (3, 4) :=
  ⟨rfl, rfl,
    fusion_camera_authority _ _ _ _ _ _ _ ⟨3, 4, 123, true⟩ rfl rfl⟩

/-- Claim C3 (camera stillness veto): whenever the fusion primary is an
enabled IMU source, the camera is enabled with a fresh valid last-motion
entry (camera gate on, `0 ≤ now_ms − cam.ts_ms ≤ camera_max_age_ms`) whose
magnitude is at most `camera_still_px`, and the primary's magnitude is at
most `imu_min_px_when_camera_still`, `compute_raw_delta` returns `(0, 0)`.
Scenario S1 is the witness. -/
theorem fusion_camera_still_veto (A : AngleDec)
    (pending : List (String × ℚ × ℚ)) (enabled : List (String × Bool))
    (last_motion : List (String × MotionDelta)) (last_out : ℚ × ℚ)
    (now_ms : ℚ) (cfg : FusionConfig) (ps : String) (primary cam : MotionDelta)
    (hps : primarySourceOf (motionsOf pending now_ms) = some ps)
    (hpm : alookup (motionsOf pending now_ms) ps = some primary)
    (hIMU : ps ∈ IMU_SOURCES)
    (hen : lookupB enabled ps = true)
    (hcamEn : lookupB enabled "camera" = true)
    (hcam : alookup last_motion "camera" = some cam)
    (hgate : cfg.camera_gate_enabled = true)
    (hvalid : cam.valid = true)
    (hfresh0 : 0 ≤ now_ms - cam.ts_ms)
    (hfresh1 : now_ms - cam.ts_ms ≤ cfg.camera_max_age_ms)
    (hstill : Real.sqrt ((cam.dx : ℝ) ^ 2 + (cam.dy : ℝ) ^ 2) ≤
      (cfg.camera_still_px : ℝ))
    (hweak : Real.sqrt ((primary.dx : ℝ) ^ 2 + (primary.dy : ℝ) ^ 2) ≤
      (cfg.imu_min_px_when_camera_still : ℝ)) :
    compute_raw_delta A pending enabled last_motion last_out now_ms cfg =
      (0, 0) := by
  have hfr : camFresh cfg cam now_ms := ⟨hgate, hvalid, hfresh0, hfresh1⟩
  have hsv : stillVeto cfg cam primary last_out :=
    ⟨(hypotLe_iff _ _ _).mpr hstill,
      Or.inl ((hypotLe_iff _ _ _).mpr hweak)⟩
  have hna := imu_not_auth hIMU
  rw [compute_raw_delta]
  simp [hps, hpm, hen, hcamEn, hcam, hna, hIMU, hfr, hsv]

theorem fusion_camera_still_veto_witness :
    ((0 : ℚ) ≤ 1000 - (⟨0, 0, 990, true⟩ : MotionDelta).ts_ms ∧
      "accel" ∈ IMU_SOURCES) ∧
    compute_raw_delta (fun p v d => Classical.propDecidable (angleOk p v d))
      [("accel", (1, 0))] [("camera", true), ("accel", true)]
      [("camera", ⟨0, 0, 990, true⟩)] (5, 0) 1000
      { camera_still_px := 0.5, imu_min_px_when_camera_still := 2.5 } =
      (0, 0) := by
  refine ⟨⟨by norm_num, by decide⟩, ?_⟩
  refine fusion_camera_still_veto _ _ _ _ _ _ _ "accel" ⟨1, 0, 1000, true⟩
    ⟨0, 0, 990, true⟩ rfl rfl (by decide) rfl rfl rfl rfl rfl ?_ ?_ ?_ ?_
  · norm_num
  · norm_num
  · norm_num [Real.sqrt_zero]
  · norm_num [Real.sqrt_one]

theorem arbitrate_sole_cam_fail (A : AngleDec) (cfg : FusionConfig)
    (primary cam : MotionDelta) (last_out : ℚ × ℚ) (now_ms : ℚ)
    (hvote : (majority_validate_direction A primary [cam]
      cfg.camera_max_age_ms cfg.min_mag cfg.max_angle_deg).ok = false) :
    arbitrate A cfg primary [cam] true last_out now_ms = (0, 0) := by
  rw [arbitrate]
  simp [hvote]

/-- Claim C4 (fresh-camera sole-validator reject): when an enabled IMU
primary is the only pending source, the sole validator is the fresh camera
entry appended from the last-motion cache (fresh, valid, magnitude at least
`camera_validator_min_px`), and the direction vote fails, then
`compute_raw_delta` returns `(0, 0)` — not the weak-fallback scaled
primary.  Scenario S3 is the witness. -/
theorem fusion_sole_camera_validator_reject (A : AngleDec)
    (pending : List (String × ℚ × ℚ)) (enabled : List (String × Bool))
    (last_motion : List (String × MotionDelta)) (last_out : ℚ × ℚ)
    (now_ms : ℚ) (cfg : FusionConfig) (ps : String) (primary cam : MotionDelta)
    (hm : motionsOf pending now_ms = [(ps, primary)])
    (hIMU : ps ∈ IMU_SOURCES)
    (hen : lookupB enabled ps = true)
    (hcamEn : lookupB enabled "camera" = true)
    (hcam : alookup last_motion "camera" = some cam)
    (hgate : cfg.camera_gate_enabled = true)
    (hvalid : cam.valid = true)
    (hfresh0 : 0 ≤ now_ms - cam.ts_ms)
    (hfresh1 : now_ms - cam.ts_ms ≤ cfg.camera_max_age_ms)
    (hmin : (cfg.camera_validator_min_px : ℝ) ≤
      Real.sqrt ((cam.dx : ℝ) ^ 2 + (cam.dy : ℝ) ^ 2))
    (hvote : (majority_validate_direction A primary [cam]
      cfg.camera_max_age_ms cfg.min_mag cfg.max_angle_deg).ok = false) :
    compute_raw_delta A pending enabled last_motion last_out now_ms cfg =
      (0, 0) := by
  have hfr : camFresh cfg cam now_ms := ⟨hgate, hvalid, hfresh0, hfresh1⟩
  have hnc := imu_not_camera hIMU
  have hna := imu_not_auth hIMU
  have hps : primarySourceOf (motionsOf pending now_ms) = some ps := by
    rw [hm]
    rcases imu_source_cases hIMU with h | h | h <;> subst h <;> rfl
  have hpm : alookup (motionsOf pending now_ms) ps = some primary := by
    rw [hm]
    simp [alookup]
  have hlookupCam : alookup (motionsOf pending now_ms) "camera" = none := by
    rw [hm]
    simp [alookup, hnc]
  have hmvals :
      ((motionsOf pending now_ms).filter fun sv => sv.1 != ps).map Prod.snd =
        ([] : List MotionDelta) := by
    rw [hm]
    simp [List.filter]
  rw [compute_raw_delta]
  simp only [hps, hpm, hcamEn, hcam, hen]
  by_cases hveto : camFresh cfg cam now_ms ∧ ps ∈ IMU_SOURCES ∧
      stillVeto cfg cam primary last_out
  · simp [hna, hveto]
  · simp only [hna, hveto, hlookupCam, hmvals, decide_eq_true hfr,
      Option.isNone_none, Bool.and_true, Bool.true_and,
      (hypotGe_iff cam.dx cam.dy cfg.camera_validator_min_px).mpr hmin,
      List.nil_append, if_true, if_false, ite_false, ite_true]
    simp [hIMU, arbitrate_sole_cam_fail A cfg primary cam last_out now_ms hvote]

theorem decide_false_of (p : Prop) (inst : Decidable p) (h : ¬p) :
    @Decidable.decide p inst = false := by
  cases inst with
  | isTrue hp => exact absurd hp h
  | isFalse hn => rfl

theorem fusion_sole_camera_validator_reject_witness :
    ("accel" ∈ IMU_SOURCES ∧
      (majority_validate_direction
        (fun p v d => Classical.propDecidable (angleOk p v d))
        ⟨0, 10, 1000, true⟩ [⟨10, 0, 990, true⟩] 250 0.01 40).ok = false) ∧
    compute_raw_delta (fun p v d => Classical.propDecidable (angleOk p v d))
      [("accel", (0, 10))] [("camera", true), ("accel", true)]
      [("camera", ⟨10, 0, 990, true⟩)] (0, 0) 1000 { } = (0, 0) := by
  have hang : ¬angleOk ⟨0, 10, 1000, true⟩ ⟨10, 0, 990, true⟩ 40 := by
    have ha : Complex.arg ⟨((0 : ℚ) : ℝ), ((10 : ℚ) : ℝ)⟩ = Real.pi / 2 := by
      rw [Complex.arg_eq_pi_div_two_iff]
      constructor <;> norm_num
    have hb : Complex.arg ⟨((10 : ℚ) : ℝ), ((0 : ℚ) : ℝ)⟩ = 0 := by
      rw [Complex.arg_eq_zero_iff]
      constructor <;> norm_num
    intro h
    simp only [angleOk] at h
    rw [ha, hb] at h
    have hd : (Real.pi / 2 - 0 + Real.pi) / (2 * Real.pi) = 3 / 4 := by
      have hpi := Real.pi_ne_zero
      field_simp
      ring
    rw [hd] at h
    have hfl : ⌊(3 / 4 : ℝ)⌋ = 0 := by
      rw [Int.floor_eq_iff]
      constructor <;> norm_num
    rw [hfl] at h
    rw [show Real.pi / 2 - 0 + Real.pi - 2 * Real.pi * ((0 : ℤ) : ℝ) - Real.pi =
      Real.pi / 2 by push_cast; ring] at h
    rw [abs_of_nonneg (by positivity)] at h
    have hpi := Real.pi_pos
    rw [show ((40 : ℚ) : ℝ) * Real.pi / 180 = 2 * Real.pi / 9 by
      push_cast; ring] at h
    nlinarith
  have hlt1 : hypotLt 0 10 0.01 = false := by
    rw [hypotLt,
      decide_false_of ((0 : ℚ) ^ 2 + 10 ^ 2 < 0.01 ^ 2) _ (by norm_num),
      Bool.and_false]
  have hlt2 : hypotLt 10 0 0.01 = false := by
    rw [hypotLt,
      decide_false_of ((10 : ℚ) ^ 2 + 0 ^ 2 < 0.01 ^ 2) _ (by norm_num),
      Bool.and_false]
  have hage : ¬((250 : ℚ) < |(1000 : ℚ) - 990|) := by
    rw [show |(1000 : ℚ) - 990| = 10 by norm_num]
    norm_num
  have hcv : countVotes (fun p v d => Classical.propDecidable (angleOk p v d))
      ⟨0, 10, 1000, true⟩ 250 0.01 40 [⟨10, 0, 990, true⟩] (1, 1) = (2, 1) := by
    rw [countVotes]
    rw [if_neg (by simp : ¬((⟨10, 0, 990, true⟩ : MotionDelta).valid = false))]
    rw [if_neg hage]
    rw [if_neg (by simp [hlt2] : ¬(hypotLt 10 0 0.01 = true))]
    rw [decide_false_of _ _ hang]
    rw [countVotes]
    rfl
  have hvote : (majority_validate_direction
      (fun p v d => Classical.propDecidable (angleOk p v d))
      ⟨0, 10, 1000, true⟩ [⟨10, 0, 990, true⟩] 250 0.01 40).ok = false := by
    rw [majority_validate_direction]
    rw [if_neg (by simp : ¬((⟨0, 10, 1000, true⟩ : MotionDelta).valid = false))]
    rw [if_neg (by simp [hlt1] : ¬(hypotLt 0 10 0.01 = true))]
    rw [hcv]
    rfl
  have hmin : (({ } : FusionConfig).camera_validator_min_px : ℝ) ≤
      Real.sqrt (((10 : ℚ) : ℝ) ^ 2 + ((0 : ℚ) : ℝ) ^ 2) := by
    have h100 : Real.sqrt (((10 : ℚ) : ℝ) ^ 2 + ((0 : ℚ) : ℝ) ^ 2) = 10 := by
      rw [show (((10 : ℚ) : ℝ) ^ 2 + ((0 : ℚ) : ℝ) ^ 2) = (10 : ℝ) ^ 2 by
        push_cast; ring]
      rw [Real.sqrt_sq (by norm_num)]
    rw [h100]
    norm_num
  refine ⟨⟨by decide, hvote⟩, ?_⟩
  exact fusion_sole_camera_validator_reject _ _ _ _ _ _ _ "accel"
    ⟨0, 10, 1000, true⟩ ⟨10, 0, 990, true⟩ rfl (by decide) rfl rfl rfl rfl rfl
    (by norm_num) (by norm_num) hmin hvote
